import Mathlib

/-!
Verification of the Student Management System (src/SMS.py).

The Python objects are mutable and compared by identity (no `__eq__` is
defined on any class), so the embedding uses an explicit heap: `Student`,
`Instructor` and `Course` objects are records stored in lists, and an object
reference is its index (`Ref`).  Python exceptions become `Except Err`;
a Python `dict` becomes an association list with dict update semantics
(replace in place if the key is present, append otherwise).
-/

abbrev Ref := Nat

/-- Field data of a `Student` object (`Person` fields inlined): the
`courses` dict maps `Course` references to optional grades. -/
structure StudentData where
  name : String
  id_number : String
  major : String
  courses : List (Ref × Option String)
deriving Repr, DecidableEq

/-- Field data of an `Instructor` object (`Person` fields inlined). -/
structure InstructorData where
  name : String
  id_number : String
  department : String
deriving Repr, DecidableEq

/-- Field data of a `Course` object: `enrolled_students` is a list of
`Student` references. -/
structure CourseData where
  course_name : String
  course_id : String
  enrolled_students : List Ref
deriving Repr, DecidableEq

/-- Field data of an `Enrollment` object: references to its student and
course, plus the optional grade. -/
structure EnrollmentData where
  student : Ref
  course : Ref
  grade : Option String
deriving Repr, DecidableEq

/-- The heap of live objects; a `Ref` indexes into the matching list. -/
structure Heap where
  students : List StudentData
  instructors : List InstructorData
  courses : List CourseData
deriving Repr, DecidableEq

/-- Python exceptions raised by the code: `ValueError` with its message,
and `NameError` for an unbound name. -/
inductive Err where
  | valueError (msg : String)
  | nameError (missing : String)
deriving Repr, DecidableEq

def getStudent (h : Heap) (r : Ref) : StudentData :=
  h.students.getD r { name := "", id_number := "", major := "", courses := [] }

def getCourse (h : Heap) (r : Ref) : CourseData :=
  h.courses.getD r { course_name := "", course_id := "", enrolled_students := [] }

def setStudent (h : Heap) (r : Ref) (d : StudentData) : Heap :=
  { h with students := h.students.set r d }

def setCourse (h : Heap) (r : Ref) (d : CourseData) : Heap :=
  { h with courses := h.courses.set r d }

/-- Python dict assignment `d[k] = v`: replace the value in place when the
key is present, append the pair otherwise. -/
def dictSet (d : List (Ref × Option String)) (k : Ref) (v : Option String) :
    List (Ref × Option String) :=
  match d with
  | [] => [(k, v)]
  | (k0, v0) :: rest =>
      if k0 == k then (k0, v) :: rest else (k0, v0) :: dictSet rest k v

/-- Python dict lookup `d[k]` (as an option). -/
def dictGet (d : List (Ref × Option String)) (k : Ref) : Option (Option String) :=
  (d.find? (fun p => p.1 == k)).map Prod.snd

/-- Python `list.remove(x)`: drop the first occurrence of `x`. -/
def removeFirst (l : List Ref) (x : Ref) : List Ref :=
  match l with
  | [] => []
  | a :: rest => if a == x then rest else a :: removeFirst rest x

/-- Method `Student.add_course` (SMS.py lines 38-51): called with the enrollment;
if the student's ID matches the enrollment's student's ID, set
`self.courses[enrol.course] = enrol.grade`. -/
def Student.add_course (h : Heap) (self : Ref) (enrol : EnrollmentData) : Heap :=
  if (getStudent h self).id_number == (getStudent h enrol.student).id_number then
    setStudent h self
      { getStudent h self with
        courses := dictSet (getStudent h self).courses enrol.course enrol.grade }
  else h

/-- Method `Course.enrollment` (SMS.py lines 102-112): if the enrollment's course
has the same `course_name` as `self`, append the enrollment's student to
`self.enrolled_students`. -/
def Course.enrollment (h : Heap) (self : Ref) (enrol : EnrollmentData) : Heap :=
  if (getCourse h self).course_name == (getCourse h enrol.course).course_name then
    setCourse h self
      { getCourse h self with
        enrolled_students := (getCourse h self).enrolled_students ++ [enrol.student] }
  else h

/-- Method `Enrollment.__init__` (SMS.py lines 181-195): store the triple, then
call `self.course.enrollment(self)` followed by `self.student.add_course(self)`.
Returns the updated heap together with the new enrollment object. -/
def Enrollment.init (h : Heap) (student : Ref) (course : Ref)
    (grade : Option String) : Heap × EnrollmentData :=
  let e : EnrollmentData := { student := student, course := course, grade := grade }
  let h1 := Course.enrollment h course e
  let h2 := Student.add_course h1 student e
  (h2, e)

/-- Method `Course.add_student` (SMS.py lines 114-127): raise `ValueError` when the
student object is already in `enrolled_students` (identity membership),
otherwise construct `Enrollment(student, self)` (the object is discarded;
its constructor side effects remain). -/
def Course.add_student (h : Heap) (self : Ref) (student : Ref) : Except Err Heap :=
  if (getCourse h self).enrolled_students.contains student then
    Except.error (Err.valueError
      ("Student ID " ++ (getStudent h student).id_number ++
        " is already enrolled in course " ++ (getCourse h self).course_name))
  else
    Except.ok (Enrollment.init h student self none).1

/-- Method `Course.find_enrolled_student` (SMS.py lines 129-142): linear scan of
`enrolled_students` by `id_number`; `None` when no match. -/
def Course.find_enrolled_student (h : Heap) (self : Ref) (student_id : String) :
    Option Ref :=
  (getCourse h self).enrolled_students.find?
    (fun std => (getStudent h std).id_number == student_id)

/-- Method `Course.remove_student` (SMS.py lines 144-156): look up via
`find_enrolled_student`; when found, `enrolled_students.remove` it. -/
def Course.remove_student (h : Heap) (self : Ref) (student_id : String) : Heap :=
  match Course.find_enrolled_student h self student_id with
  | some std =>
      setCourse h self
        { getCourse h self with
          enrolled_students := removeFirst (getCourse h self).enrolled_students std }
  | none => h

/-- Method `Enrollment.assign_grade` (SMS.py lines 197-210): if the grade is in
`['A','B','C','D','E','F']` set `self.grade` and
`self.student.courses[self.course]`; otherwise raise `ValueError`. -/
def Enrollment.assign_grade (h : Heap) (self : EnrollmentData) (grade : String) :
    Except Err (Heap × EnrollmentData) :=
  let grade_system : List String := ["A", "B", "C", "D", "E", "F"]
  if grade_system.contains grade then
    Except.ok
      (setStudent h self.student
        { getStudent h self.student with
          courses := dictSet (getStudent h self.student).courses self.course
            (some grade) },
       { self with grade := some grade })
  else
    Except.error (Err.valueError "Invalid grading system")

/-- The `StudentManagementSystem` registry (SMS.py lines 225-238): lists of
object references, plus the enrollment records. -/
structure StudentManagementSystem where
  students : List Ref
  instructors : List Ref
  courses : List Ref
  enrollments : List EnrollmentData
deriving Repr, DecidableEq

/-- Method `StudentManagementSystem.__init__`: all four collections empty. -/
def smsEmpty : StudentManagementSystem :=
  { students := [], instructors := [], courses := [], enrollments := [] }

/-- Method `StudentManagementSystem.add_student` (lines 240-251): append only when
the object is not already present (identity membership). -/
def StudentManagementSystem.add_student (sms : StudentManagementSystem)
    (student : Ref) : StudentManagementSystem :=
  if sms.students.contains student then sms
  else { sms with students := sms.students ++ [student] }

/-- Method `StudentManagementSystem.find_student` (lines 253-267): first student
whose `id_number` matches, else `ValueError`. -/
def StudentManagementSystem.find_student (h : Heap)
    (sms : StudentManagementSystem) (student_id : String) : Except Err Ref :=
  match sms.students.find? (fun std => (getStudent h std).id_number == student_id) with
  | some std => Except.ok std
  | none => Except.error (Err.valueError
      ("No student record found for ID: " ++ student_id))

/-- Method `StudentManagementSystem.add_instructor` (lines 302-313). -/
def StudentManagementSystem.add_instructor (sms : StudentManagementSystem)
    (instructor : Ref) : StudentManagementSystem :=
  if sms.instructors.contains instructor then sms
  else { sms with instructors := sms.instructors ++ [instructor] }

/-- Method `StudentManagementSystem.add_course` (lines 364-375). -/
def StudentManagementSystem.add_course (sms : StudentManagementSystem)
    (course : Ref) : StudentManagementSystem :=
  if sms.courses.contains course then sms
  else { sms with courses := sms.courses ++ [course] }

/-- Method `StudentManagementSystem.find_course` (lines 377-391): first course
whose `course_id` matches, else `ValueError`. -/
def StudentManagementSystem.find_course (h : Heap)
    (sms : StudentManagementSystem) (course_id : String) : Except Err Ref :=
  match sms.courses.find? (fun crs => (getCourse h crs).course_id == course_id) with
  | some crs => Except.ok crs
  | none => Except.error (Err.valueError
      ("No course record found for ID: " ++ course_id))

/-- Method `StudentManagementSystem.enroll_student` (lines 421-437).  The source
reads `course_found = self.find_course(crs)` where `crs` is an unbound
name, so after `find_student` succeeds the evaluation of the argument
raises `NameError`; the `course_id` parameter is never consulted and no
enrollment is ever created. -/
def StudentManagementSystem.enroll_student (h : Heap)
    (sms : StudentManagementSystem) (student_id : String) (course_id : String) :
    Except Err (Heap × StudentManagementSystem) :=
  match StudentManagementSystem.find_student h sms student_id with
  | Except.error e => Except.error e
  | Except.ok _student_found => Except.error (Err.nameError "crs")

/-- Method `StudentManagementSystem.students_in_course` (lines 471-483):
`find_course`, then return its `enrolled_students`. -/
def StudentManagementSystem.students_in_course (h : Heap)
    (sms : StudentManagementSystem) (course_id : String) : Except Err (List Ref) :=
  match StudentManagementSystem.find_course h sms course_id with
  | Except.error e => Except.error e
  | Except.ok course_found => Except.ok (getCourse h course_found).enrolled_students

/-- Method `StudentManagementSystem.student_courses` (lines 485-497):
`find_student`, then return `list(student.courses.keys())`. -/
def StudentManagementSystem.student_courses (h : Heap)
    (sms : StudentManagementSystem) (student_id : String) : Except Err (List Ref) :=
  match StudentManagementSystem.find_student h sms student_id with
  | Except.error e => Except.error e
  | Except.ok student_found =>
      Except.ok ((getStudent h student_found).courses.map Prod.fst)

/-- A small concrete heap used by the witnesses: students 0 and 1 share the
ID "S1", student 2 has ID "S2" and already holds course 1 with grade "B";
course 1 ("Logic") already has student 2 enrolled. -/
def sampleHeap : Heap :=
  { students :=
      [ { name := "Ada", id_number := "S1", major := "Math", courses := [] },
        { name := "Bob", id_number := "S1", major := "CS", courses := [] },
        { name := "Cyn", id_number := "S2", major := "Phys",
          courses := [(1, some "B")] } ],
    instructors := [ { name := "Ivy", id_number := "I1", department := "Math" } ],
    courses :=
      [ { course_name := "Algebra", course_id := "C1", enrolled_students := [] },
        { course_name := "Logic", course_id := "C2", enrolled_students := [2] } ] }

/-- A registry over `sampleHeap` holding student 0 and course 0. -/
def sampleSMS : StudentManagementSystem :=
  { students := [0], instructors := [0], courses := [0], enrollments := [] }

/-! ### Helper lemmas about the heap, dicts and lists -/

theorem getD_set_self {α : Type} (l : List α) (i : Nat) (a d : α)
    (h : i < l.length) : (l.set i a).getD i d = a := by
  rw [List.getD_eq_getElem?_getD, List.getElem?_set_self]
  · rfl
  · simpa using h

theorem students_setCourse (h : Heap) (r : Ref) (d : CourseData) :
    (setCourse h r d).students = h.students := rfl

theorem getStudent_setCourse (h : Heap) (r s : Ref) (d : CourseData) :
    getStudent (setCourse h r d) s = getStudent h s := rfl

theorem getCourse_setStudent (h : Heap) (r s : Ref) (d : StudentData) :
    getCourse (setStudent h r d) s = getCourse h s := rfl

theorem getStudent_setStudent_self (h : Heap) (r : Ref) (d : StudentData)
    (hr : r < h.students.length) : getStudent (setStudent h r d) r = d := by
  unfold getStudent setStudent
  exact getD_set_self _ _ _ _ hr

theorem getCourse_setCourse_self (h : Heap) (r : Ref) (d : CourseData)
    (hr : r < h.courses.length) : getCourse (setCourse h r d) r = d := by
  unfold getCourse setCourse
  exact getD_set_self _ _ _ _ hr

theorem dictGet_dictSet_self (d : List (Ref × Option String)) (k : Ref)
    (v : Option String) : dictGet (dictSet d k v) k = some v := by
  induction d with
  | nil => simp [dictSet, dictGet, List.find?]
  | cons p rest ih =>
    obtain ⟨k0, v0⟩ := p
    cases hk : (k0 == k) with
    | true => simp [dictSet, hk, dictGet, List.find?]
    | false =>
      simp only [dictSet, hk, Bool.false_eq_true, if_false]
      simpa [dictGet, List.find?, hk] using ih

theorem count_keys_dictSet (d : List (Ref × Option String)) (k : Ref)
    (v : Option String) (hd : (d.map Prod.fst).Nodup) :
    ((dictSet d k v).map Prod.fst).count k = 1 := by
  induction d with
  | nil => simp [dictSet]
  | cons p rest ih =>
    obtain ⟨k0, v0⟩ := p
    rw [List.map_cons, List.nodup_cons] at hd
    cases hk : (k0 == k) with
    | true =>
      have hk' : k0 = k := by simpa using hk
      subst hk'
      rw [show dictSet ((k0, v0) :: rest) k0 v = (k0, v) :: rest by simp [dictSet]]
      rw [List.map_cons, List.count_cons_self, List.count_eq_zero.mpr hd.1]
    | false =>
      have hk' : k ≠ k0 := fun e => by simp [e] at hk
      rw [dictSet]
      simp only [hk, Bool.false_eq_true, if_false, List.map_cons]
      rw [List.count_cons_of_ne hk']
      exact ih hd.2

/-- Constructor side effect of `Enrollment.__init__` on the course (its
name trivially matches itself): the student is appended to the roster. -/
theorem init_course_effect (h : Heap) (s c : Ref) (g : Option String)
    (hc : c < h.courses.length) :
    getCourse (Enrollment.init h s c g).1 c =
      { getCourse h c with
        enrolled_students := (getCourse h c).enrolled_students ++ [s] } := by
  simp only [Enrollment.init, Student.add_course]
  split
  · rw [getCourse_setStudent]
    simp only [Course.enrollment, beq_self_eq_true, if_pos]
    exact getCourse_setCourse_self h c _ hc
  · simp only [Course.enrollment, beq_self_eq_true, if_pos]
    exact getCourse_setCourse_self h c _ hc

/-- Constructor side effect of `Enrollment.__init__` on the student (its
ID trivially matches itself): the course is written into its dict. -/
theorem init_student_effect (h : Heap) (s c : Ref) (g : Option String)
    (hs : s < h.students.length) :
    getStudent (Enrollment.init h s c g).1 s =
      { getStudent h s with courses := dictSet (getStudent h s).courses c g } := by
  have hs' : s < (Course.enrollment h c { student := s, course := c, grade := g }).students.length := by
    simpa [Course.enrollment, students_setCourse] using hs
  simp only [Enrollment.init, Student.add_course, beq_self_eq_true, if_pos]
  rw [getStudent_setStudent_self _ _ _ hs']
  simp [Course.enrollment, getStudent_setCourse]

/-- Method `Enrollment.__init__` preserves the number of course objects. -/
theorem init_courses_length (h : Heap) (s c : Ref) (g : Option String) :
    (Enrollment.init h s c g).1.courses.length = h.courses.length := by
  simp only [Enrollment.init, Student.add_course, Course.enrollment]
  split <;> simp [setCourse, setStudent, List.length_set]

/-! ### Claims -/

/-- C1: the claim says `enroll_student(student_id, course_id)` resolves both
IDs via `find_student`/`find_course`, constructs an Enrollment and appends
it to the registry's enrollments.  In the code (SMS.py line 435) the
argument passed to `find_course` is the unbound name `crs`, so on a registry
where both IDs resolve — here student 0 carries "S1" and course 0 carries
"C1" — the call raises `NameError` and no enrollment is ever created: the
code contradicts its own docstring. -/
theorem C1_enroll_student_raises_name_error :
    StudentManagementSystem.find_student sampleHeap sampleSMS "S1" = Except.ok 0 ∧
    StudentManagementSystem.find_course sampleHeap sampleSMS "C1" = Except.ok 0 ∧
    StudentManagementSystem.enroll_student sampleHeap sampleSMS "S1" "C1" =
      Except.error (Err.nameError "crs") :=
  ⟨rfl, rfl, rfl⟩

/-- C2: when student `s` is not yet on course `c`'s roster,
`Course.add_student` succeeds, and afterwards `s` appears exactly once in
`c.enrolled_students` and `c` appears exactly once among the keys of
`s.courses`. -/
theorem C2_add_student_links_both_sides (h : Heap) (c s : Ref)
    (hc : c < h.courses.length) (hs : s < h.students.length)
    (hnotin : (getCourse h c).enrolled_students.contains s = false)
    (hnodup : ((getStudent h s).courses.map Prod.fst).Nodup) :
    ∃ h2, Course.add_student h c s = Except.ok h2 ∧
      (getCourse h2 c).enrolled_students.count s = 1 ∧
      ((getStudent h2 s).courses.map Prod.fst).count c = 1 := by
  have hcr := init_course_effect h s c none hc
  have hst := init_student_effect h s c none hs
  have hmem : s ∉ (getCourse h c).enrolled_students := by simpa using hnotin
  refine ⟨(Enrollment.init h s c none).1, ?_, ?_, ?_⟩
  · simp [Course.add_student, hmem]
  · rw [hcr]
    simp [List.count_append, List.count_eq_zero.mpr hmem]
  · rw [hst]
    exact count_keys_dictSet _ _ _ hnodup

/-- Witness for C2 on `sampleHeap`: enrolling student 0 in course 0. -/
theorem C2_witness :
    ∃ h2, Course.add_student sampleHeap 0 0 = Except.ok h2 ∧
      (getCourse h2 0).enrolled_students.count 0 = 1 ∧
      ((getStudent h2 0).courses.map Prod.fst).count 0 = 1 :=
  C2_add_student_links_both_sides sampleHeap 0 0 (by decide) (by decide)
    (by decide) (by decide)

/-- C3: for a grade in {A,B,C,D,E,F}, `assign_grade` succeeds and updates
both the enrollment's grade field and the student's dict entry for the
course; for any other grade it raises the invalid-grade `ValueError` and
(the call returning before any assignment) no state changes. -/
theorem C3_assign_grade_valid_and_invalid (h : Heap) (e : EnrollmentData)
    (g1 g2 : String) (hs : e.student < h.students.length)
    (hv : (["A", "B", "C", "D", "E", "F"] : List String).contains g1 = true)
    (hi : (["A", "B", "C", "D", "E", "F"] : List String).contains g2 = false) :
    (∃ h2, Enrollment.assign_grade h e g1 =
        Except.ok (h2, { e with grade := some g1 }) ∧
      dictGet (getStudent h2 e.student).courses e.course = some (some g1)) ∧
    Enrollment.assign_grade h e g2 =
      Except.error (Err.valueError "Invalid grading system") := by
  have hv' : g1 ∈ (["A", "B", "C", "D", "E", "F"] : List String) := by
    simpa using hv
  have hi' : g2 ∉ (["A", "B", "C", "D", "E", "F"] : List String) := by
    simpa using hi
  constructor
  · refine ⟨setStudent h e.student
      { getStudent h e.student with
        courses := dictSet (getStudent h e.student).courses e.course (some g1) },
      ?_, ?_⟩
    · simp [Enrollment.assign_grade, hv']
    · rw [getStudent_setStudent_self _ _ _ hs]
      exact dictGet_dictSet_self _ _ _
  · simp [Enrollment.assign_grade, hi']

/-- Witness for C3: student 2's enrollment in course 1 over `sampleHeap`,
with valid grade "A" and invalid grade "Z". -/
theorem C3_witness :
    (∃ h2, Enrollment.assign_grade sampleHeap
        { student := 2, course := 1, grade := some "B" } "A" =
        Except.ok (h2, { student := 2, course := 1, grade := some "A" }) ∧
      dictGet (getStudent h2 2).courses 1 = some (some "A")) ∧
    Enrollment.assign_grade sampleHeap
        { student := 2, course := 1, grade := some "B" } "Z" =
      Except.error (Err.valueError "Invalid grading system") :=
  C3_assign_grade_valid_and_invalid sampleHeap
    { student := 2, course := 1, grade := some "B" } "A" "Z"
    (by decide) (by decide) (by decide)

/-- C4: calling `Course.add_student` with a student already on the roster
raises the duplicate-enrollment `ValueError`; the exception is raised
before any mutation, so no updated heap is produced and
`enrolled_students` is untouched. -/
theorem C4_duplicate_add_student_raises (h : Heap) (c s : Ref)
    (hin : (getCourse h c).enrolled_students.contains s = true) :
    Course.add_student h c s = Except.error (Err.valueError
      ("Student ID " ++ (getStudent h s).id_number ++
        " is already enrolled in course " ++ (getCourse h c).course_name)) := by
  have hmem : s ∈ (getCourse h c).enrolled_students := by simpa using hin
  simp [Course.add_student, hmem]

/-- Witness for C4: student 2 is already enrolled in course 1. -/
theorem C4_witness :
    Course.add_student sampleHeap 1 2 = Except.error (Err.valueError
      ("Student ID " ++ (getStudent sampleHeap 2).id_number ++
        " is already enrolled in course " ++ (getCourse sampleHeap 1).course_name)) :=
  C4_duplicate_add_student_raises sampleHeap 1 2 (by decide)

/-- Folding `add_student` over pairwise-distinct fresh references appends
them all. -/
theorem add_student_fold (rs : List Ref) (sms : StudentManagementSystem)
    (hd : (sms.students ++ rs).Nodup) :
    (rs.foldl StudentManagementSystem.add_student sms).students
      = sms.students ++ rs := by
  induction rs generalizing sms with
  | nil => simp
  | cons r rest ih =>
    have hdisj : sms.students.Disjoint (r :: rest) :=
      List.disjoint_of_nodup_append hd
    have hr : r ∉ sms.students := fun hmem => hdisj hmem (List.mem_cons_self r rest)
    have hsms : StudentManagementSystem.add_student sms r
        = { sms with students := sms.students ++ [r] } := by
      simp [StudentManagementSystem.add_student, hr]
    rw [List.foldl_cons, hsms,
      ih _ (by simpa [List.append_assoc] using hd)]
    simp

/-- With pairwise-distinct ID strings, the linear scan for a member's ID
finds exactly that member. -/
theorem find_first_by_id (h : Heap) (rs : List Ref) (s : Ref)
    (hmem : s ∈ rs)
    (hnodup : (rs.map (fun r => (getStudent h r).id_number)).Nodup) :
    rs.find? (fun r => (getStudent h r).id_number == (getStudent h s).id_number)
      = some s := by
  induction rs with
  | nil => cases hmem
  | cons a rest ih =>
    rw [List.map_cons, List.nodup_cons] at hnodup
    rcases List.mem_cons.mp hmem with h1 | h2
    · subst h1
      have htrue : ((getStudent h s).id_number == (getStudent h s).id_number) = true := by
        simp
      simp only [List.find?, htrue]
    · have hfalse : ((getStudent h a).id_number == (getStudent h s).id_number) = false := by
        rw [beq_eq_false_iff_ne]
        intro heq
        exact hnodup.1 (heq ▸ List.mem_map_of_mem _ h2)
      simp only [List.find?, hfalse]
      exact ih h2 hnodup.2

/-- The linear scan fails when no reference in the list carries the ID. -/
theorem find_none_of_no_match (h : Heap) (rs : List Ref) (missing_id : String)
    (hmiss : ∀ r ∈ rs, (getStudent h r).id_number ≠ missing_id) :
    rs.find? (fun r => (getStudent h r).id_number == missing_id) = none := by
  rw [List.find?_eq_none]
  intro x hx
  simpa using hmiss x hx

/-- C5: after adding students with pairwise-distinct `id_number`s to a fresh
registry, `find_student` returns exactly the student carrying the queried
ID, and fails with the not-found `ValueError` on an ID that no added
student carries. -/
theorem C5_find_student_roundtrip (h : Heap) (rs : List Ref) (s : Ref)
    (missing_id : String)
    (hnodup : (rs.map (fun r => (getStudent h r).id_number)).Nodup)
    (hmem : s ∈ rs)
    (hmiss : ∀ r ∈ rs, (getStudent h r).id_number ≠ missing_id) :
    StudentManagementSystem.find_student h
        (rs.foldl StudentManagementSystem.add_student smsEmpty)
        ((getStudent h s).id_number) = Except.ok s ∧
    StudentManagementSystem.find_student h
        (rs.foldl StudentManagementSystem.add_student smsEmpty) missing_id
      = Except.error (Err.valueError
          ("No student record found for ID: " ++ missing_id)) := by
  have hstudents :
      (rs.foldl StudentManagementSystem.add_student smsEmpty).students = rs := by
    have hrs : rs.Nodup := hnodup.of_map
    simpa [smsEmpty] using add_student_fold rs smsEmpty (by simpa [smsEmpty] using hrs)
  constructor
  · simp only [StudentManagementSystem.find_student, hstudents]
    rw [find_first_by_id h rs s hmem hnodup]
  · simp only [StudentManagementSystem.find_student, hstudents]
    rw [find_none_of_no_match h rs missing_id hmiss]

/-- Witness for C5: students 0 ("S1") and 2 ("S2") added to a fresh
registry; lookup of "S1" returns student 0 and lookup of "S9" fails. -/
theorem C5_witness :
    StudentManagementSystem.find_student sampleHeap
        ([0, 2].foldl StudentManagementSystem.add_student smsEmpty)
        ((getStudent sampleHeap 0).id_number) = Except.ok 0 ∧
    StudentManagementSystem.find_student sampleHeap
        ([0, 2].foldl StudentManagementSystem.add_student smsEmpty) "S9"
      = Except.error (Err.valueError
          ("No student record found for ID: " ++ "S9")) :=
  C5_find_student_roundtrip sampleHeap [0, 2] 0 "S9" (by decide) (by decide)
    (by decide)

/-- C6: `Course.remove_student` drops the first roster entry whose ID
matches when `find_enrolled_student` finds one, and is a no-op when it does
not; in both cases the student objects (hence every `courses` mapping) are
untouched, and enrollment records — which live outside the course — cannot
be affected by it. -/
theorem C6_remove_student_frame (h : Heap) (c c2 : Ref) (sid sid2 : String)
    (std : Ref) (hc : c < h.courses.length)
    (hfound : Course.find_enrolled_student h c sid = some std)
    (hnone : Course.find_enrolled_student h c2 sid2 = none) :
    (Course.remove_student h c sid).students = h.students ∧
    (Course.remove_student h c sid).instructors = h.instructors ∧
    (getCourse (Course.remove_student h c sid) c).enrolled_students
      = removeFirst (getCourse h c).enrolled_students std ∧
    Course.remove_student h c2 sid2 = h := by
  refine ⟨?_, ?_, ?_, ?_⟩
  · simp only [Course.remove_student, hfound]
    rfl
  · simp only [Course.remove_student, hfound]
    rfl
  · simp only [Course.remove_student, hfound]
    rw [getCourse_setCourse_self _ _ _ hc]
  · simp only [Course.remove_student, hnone]

/-- Witness for C6: on `sampleHeap`, removing "S2" from course 1 leaves
students untouched and drops student 2; removing "S9" is a no-op. -/
theorem C6_witness :
    (Course.remove_student sampleHeap 1 "S2").students = sampleHeap.students ∧
    (Course.remove_student sampleHeap 1 "S2").instructors = sampleHeap.instructors ∧
    (getCourse (Course.remove_student sampleHeap 1 "S2") 1).enrolled_students
      = removeFirst (getCourse sampleHeap 1).enrolled_students 2 ∧
    Course.remove_student sampleHeap 1 "S9" = sampleHeap :=
  C6_remove_student_frame sampleHeap 1 1 "S2" "S9" 2 (by decide) (by decide)
    (by decide)

/-- Adding the same student reference twice is the same as adding it once. -/
theorem add_student_idem (sms : StudentManagementSystem) (x : Ref) :
    StudentManagementSystem.add_student (StudentManagementSystem.add_student sms x) x
      = StudentManagementSystem.add_student sms x := by
  by_cases hx : x ∈ sms.students
  · simp [StudentManagementSystem.add_student, hx]
  · simp [StudentManagementSystem.add_student, hx]

/-- Adding the same instructor reference twice is the same as adding it once. -/
theorem add_instructor_idem (sms : StudentManagementSystem) (x : Ref) :
    StudentManagementSystem.add_instructor
        (StudentManagementSystem.add_instructor sms x) x
      = StudentManagementSystem.add_instructor sms x := by
  by_cases hx : x ∈ sms.instructors
  · simp [StudentManagementSystem.add_instructor, hx]
  · simp [StudentManagementSystem.add_instructor, hx]

/-- Adding the same course reference twice is the same as adding it once. -/
theorem add_course_idem (sms : StudentManagementSystem) (x : Ref) :
    StudentManagementSystem.add_course (StudentManagementSystem.add_course sms x) x
      = StudentManagementSystem.add_course sms x := by
  by_cases hx : x ∈ sms.courses
  · simp [StudentManagementSystem.add_course, hx]
  · simp [StudentManagementSystem.add_course, hx]

/-- C7: each registry add operation silently no-ops (no error, collection
unchanged) when the object is already present, and is idempotent: adding
the same object twice yields the same registry as adding it once. -/
theorem C7_add_noop_and_idempotent (sms sms2 : StudentManagementSystem)
    (s i c s2 i2 c2 : Ref)
    (hs : sms.students.contains s = true)
    (hi : sms.instructors.contains i = true)
    (hc : sms.courses.contains c = true) :
    StudentManagementSystem.add_student sms s = sms ∧
    StudentManagementSystem.add_instructor sms i = sms ∧
    StudentManagementSystem.add_course sms c = sms ∧
    StudentManagementSystem.add_student
        (StudentManagementSystem.add_student sms2 s2) s2
      = StudentManagementSystem.add_student sms2 s2 ∧
    StudentManagementSystem.add_instructor
        (StudentManagementSystem.add_instructor sms2 i2) i2
      = StudentManagementSystem.add_instructor sms2 i2 ∧
    StudentManagementSystem.add_course
        (StudentManagementSystem.add_course sms2 c2) c2
      = StudentManagementSystem.add_course sms2 c2 := by
  have hs' : s ∈ sms.students := by simpa using hs
  have hi' : i ∈ sms.instructors := by simpa using hi
  have hc' : c ∈ sms.courses := by simpa using hc
  refine ⟨?_, ?_, ?_, add_student_idem sms2 s2, add_instructor_idem sms2 i2,
    add_course_idem sms2 c2⟩
  · simp [StudentManagementSystem.add_student, hs']
  · simp [StudentManagementSystem.add_instructor, hi']
  · simp [StudentManagementSystem.add_course, hc']

/-- Witness for C7: `sampleSMS` already holds student 0, instructor 0 and
course 0; fresh additions of reference 1 to an empty registry. -/
theorem C7_witness :
    StudentManagementSystem.add_student sampleSMS 0 = sampleSMS ∧
    StudentManagementSystem.add_instructor sampleSMS 0 = sampleSMS ∧
    StudentManagementSystem.add_course sampleSMS 0 = sampleSMS ∧
    StudentManagementSystem.add_student
        (StudentManagementSystem.add_student smsEmpty 1) 1
      = StudentManagementSystem.add_student smsEmpty 1 ∧
    StudentManagementSystem.add_instructor
        (StudentManagementSystem.add_instructor smsEmpty 1) 1
      = StudentManagementSystem.add_instructor smsEmpty 1 ∧
    StudentManagementSystem.add_course
        (StudentManagementSystem.add_course smsEmpty 1) 1
      = StudentManagementSystem.add_course smsEmpty 1 :=
  C7_add_noop_and_idempotent sampleSMS smsEmpty 0 0 0 1 1 1 (by decide)
    (by decide) (by decide)

/-- C8: `students_in_course` returns the found course's roster and
`student_courses` the found student's course keys (in insertion order);
when the ID resolves to no entity each propagates the not-found
`ValueError` from `find_course`/`find_student` instead of returning an
empty collection. -/
theorem C8_relationship_queries (h : Heap) (sms : StudentManagementSystem)
    (cid1 cid2 sid1 sid2 : String) (c s : Ref)
    (hcok : StudentManagementSystem.find_course h sms cid1 = Except.ok c)
    (hsok : StudentManagementSystem.find_student h sms sid1 = Except.ok s)
    (hcnone : ∀ r ∈ sms.courses, (getCourse h r).course_id ≠ cid2)
    (hsnone : ∀ r ∈ sms.students, (getStudent h r).id_number ≠ sid2) :
    StudentManagementSystem.students_in_course h sms cid1
      = Except.ok (getCourse h c).enrolled_students ∧
    StudentManagementSystem.student_courses h sms sid1
      = Except.ok ((getStudent h s).courses.map Prod.fst) ∧
    StudentManagementSystem.students_in_course h sms cid2
      = Except.error (Err.valueError ("No course record found for ID: " ++ cid2)) ∧
    StudentManagementSystem.student_courses h sms sid2
      = Except.error (Err.valueError ("No student record found for ID: " ++ sid2)) := by
  refine ⟨?_, ?_, ?_, ?_⟩
  · simp [StudentManagementSystem.students_in_course, hcok]
  · simp [StudentManagementSystem.student_courses, hsok]
  · have hfc : sms.courses.find? (fun r => (getCourse h r).course_id == cid2) = none := by
      rw [List.find?_eq_none]
      intro x hx
      simpa using hcnone x hx
    simp [StudentManagementSystem.students_in_course,
      StudentManagementSystem.find_course, hfc]
  · have hfs : sms.students.find? (fun r => (getStudent h r).id_number == sid2) = none := by
      rw [List.find?_eq_none]
      intro x hx
      simpa using hsnone x hx
    simp [StudentManagementSystem.student_courses,
      StudentManagementSystem.find_student, hfs]

/-- Witness for C8 on `sampleHeap`/`sampleSMS`: "C1" and "S1" resolve to
course 0 and student 0; "C9" and "S9" resolve to nothing. -/
theorem C8_witness :
    StudentManagementSystem.students_in_course sampleHeap sampleSMS "C1"
      = Except.ok (getCourse sampleHeap 0).enrolled_students ∧
    StudentManagementSystem.student_courses sampleHeap sampleSMS "S1"
      = Except.ok ((getStudent sampleHeap 0).courses.map Prod.fst) ∧
    StudentManagementSystem.students_in_course sampleHeap sampleSMS "C9"
      = Except.error (Err.valueError ("No course record found for ID: " ++ "C9")) ∧
    StudentManagementSystem.student_courses sampleHeap sampleSMS "S9"
      = Except.error (Err.valueError ("No student record found for ID: " ++ "S9")) :=
  C8_relationship_queries sampleHeap sampleSMS "C1" "C9" "S1" "S9" 0 0 rfl rfl
    (by decide) (by decide)

/-- C9: constructing `Enrollment(S, C, g)` directly performs no duplicate
check: even when the student is already on the course's roster, the
constructor appends the student again (the count rises above one) and
overwrites the student's dict entry for the course with the new grade,
discarding whatever grade was stored before. -/
theorem C9_direct_enrollment_skips_dup_check (h : Heap) (s c : Ref)
    (g : Option String) (hc : c < h.courses.length)
    (hs : s < h.students.length)
    (hin : (getCourse h c).enrolled_students.contains s = true) :
    (getCourse (Enrollment.init h s c g).1 c).enrolled_students
      = (getCourse h c).enrolled_students ++ [s] ∧
    2 ≤ List.count s (getCourse (Enrollment.init h s c g).1 c).enrolled_students ∧
    dictGet (getStudent (Enrollment.init h s c g).1 s).courses c = some g := by
  have hcr := init_course_effect h s c g hc
  have hst := init_student_effect h s c g hs
  have hmem : s ∈ (getCourse h c).enrolled_students := by simpa using hin
  refine ⟨?_, ?_, ?_⟩
  · rw [hcr]
  · rw [hcr]
    have h1 : List.count s (getCourse h c).enrolled_students ≠ 0 := by
      intro h0
      exact (List.count_eq_zero.mp h0) hmem
    have hco : List.count s ((getCourse h c).enrolled_students ++ [s])
        = List.count s (getCourse h c).enrolled_students + 1 := by
      simp [List.count_append]
    rw [hco]
    omega
  · rw [hst]
    exact dictGet_dictSet_self _ _ _

/-- Witness for C9: student 2 is already enrolled in course 1 and holds
grade "B" for it; a direct `Enrollment.__init__` with the default grade
duplicates the roster entry and resets the stored grade to `none`. -/
theorem C9_witness :
    (getCourse (Enrollment.init sampleHeap 2 1 none).1 1).enrolled_students
      = (getCourse sampleHeap 1).enrolled_students ++ [2] ∧
    2 ≤ List.count 2 (getCourse (Enrollment.init sampleHeap 2 1 none).1 1).enrolled_students ∧
    dictGet (getStudent (Enrollment.init sampleHeap 2 1 none).1 2).courses 1
      = some none :=
  C9_direct_enrollment_skips_dup_check sampleHeap 2 1 none (by decide)
    (by decide) (by decide)

/-- C10: `Course.add_student`'s duplicate check compares object identity,
not IDs: two distinct student objects sharing one `id_number` are both
accepted, so the roster ends up holding both. -/
theorem C10_identity_not_id_check (h : Heap) (c s1 s2 : Ref)
    (hc : c < h.courses.length) (hne : s1 ≠ s2)
    (hid : (getStudent h s1).id_number = (getStudent h s2).id_number)
    (h1notin : (getCourse h c).enrolled_students.contains s1 = false)
    (h2notin : (getCourse h c).enrolled_students.contains s2 = false) :
    (getStudent h s1).id_number = (getStudent h s2).id_number ∧
    ∃ h1 h2, Course.add_student h c s1 = Except.ok h1 ∧
      Course.add_student h1 c s2 = Except.ok h2 ∧
      (getCourse h2 c).enrolled_students
        = (getCourse h c).enrolled_students ++ [s1, s2] := by
  refine ⟨hid, ?_⟩
  have hmem1 : s1 ∉ (getCourse h c).enrolled_students := by simpa using h1notin
  have hmem2 : s2 ∉ (getCourse h c).enrolled_students := by simpa using h2notin
  have hcr1 := init_course_effect h s1 c none hc
  have hc1 : c < (Enrollment.init h s1 c none).1.courses.length := by
    rw [init_courses_length]
    exact hc
  have hcr2 := init_course_effect (Enrollment.init h s1 c none).1 s2 c none hc1
  refine ⟨(Enrollment.init h s1 c none).1,
    (Enrollment.init (Enrollment.init h s1 c none).1 s2 c none).1, ?_, ?_, ?_⟩
  · simp [Course.add_student, hmem1]
  · have hmem2' : s2 ∉ (getCourse (Enrollment.init h s1 c none).1 c).enrolled_students := by
      rw [hcr1]
      simp [hmem2, hne.symm]
    simp [Course.add_student, hmem2']
  · rw [hcr2, hcr1]
    simp

/-- Witness for C10: students 0 and 1 of `sampleHeap` are distinct objects
both carrying ID "S1"; both get enrolled in course 0. -/
theorem C10_witness :
    (getStudent sampleHeap 0).id_number = (getStudent sampleHeap 1).id_number ∧
    ∃ h1 h2, Course.add_student sampleHeap 0 0 = Except.ok h1 ∧
      Course.add_student h1 0 1 = Except.ok h2 ∧
      (getCourse h2 0).enrolled_students
        = (getCourse sampleHeap 0).enrolled_students ++ [0, 1] :=
  C10_identity_not_id_check sampleHeap 0 0 1 (by decide) (by decide)
    (by decide) (by decide) (by decide)
